import Mathlib

/-!
Verification of the react-redux-appauth core: a shallow embedding of the
token-exchange layer (`ExtendedTokenRequestHandler`, `ExtendedOidcTokenResponse`,
`AuthAdapter.refreshTokens`, `AuthAdapter.checkExpire`), the popup/iframe
authorization-request handlers (`PopupRequestHandler`, `IFrameRequestHandler`)
over an explicit key-value storage backend, and the popup transport window
(`PopupWindow.navigate`) as a small event-step machine.

Conventions of the embedding:
- TypeScript `T | undefined` values are `Option`; JavaScript truthiness of a
  string is `≠ ""` on `some`, of a number is `≠ 0` on `some`.
- JSON round-trips through the storage backend (`JSON.stringify`/`JSON.parse`)
  are modelled as an identity embedding into a `StoredVal` sum type.
- Numbers (seconds since epoch, buffers) are `Int`; `nowInSeconds()` is passed
  explicitly as a `now : Int` argument.
-/

/-- JS string truthiness: a `string | undefined` value is truthy iff it is
present and non-empty.  Used wherever the source writes `if (x)` on a string. -/
def strTruthy (s : Option String) : Bool :=
  match s with
  | some v => v ≠ ""
  | none => false

/-- The source's `queryParams.get(k) || undefined`: `URLSearchParams.get`
returns `string | null`, and `|| undefined` maps both `null` and the empty
string to `undefined`. -/
def getOrUndefined (v : Option String) : Option String :=
  match v with
  | some s => if s = "" then none else some s
  | none => none

/-- Grant type constant from appauth (`GRANT_TYPE_AUTHORIZATION_CODE`). -/
def GRANT_TYPE_AUTHORIZATION_CODE : String := "authorization_code"

/-- Grant type constant from appauth (`GRANT_TYPE_REFRESH_TOKEN`). -/
def GRANT_TYPE_REFRESH_TOKEN : String := "refresh_token"

/-- `TokenRequest` fields as constructed by `AuthAdapter.finishAuthorization`
and `AuthAdapter.refreshTokens` (src/unnamed/part_003): client_id,
redirect_uri, grant_type, optional code, optional refresh_token, extras. -/
structure TokenRequest where
  clientId : String
  redirectUri : String
  grantType : String
  code : Option String
  refreshToken : Option String
  extras : Option (List (String × String))
deriving Repr, DecidableEq

/-- Models `@openid/appauth` `TokenRequest.toStringMap()`: the base map holds
grant_type, redirect_uri and client_id; `code` and `refresh_token` are added
when truthy; extras are copied over unless their key is already present. -/
def TokenRequest.toStringMap (r : TokenRequest) : List (String × String) :=
  let base := [("grant_type", r.grantType), ("redirect_uri", r.redirectUri),
    ("client_id", r.clientId)]
  let base := base ++ (if strTruthy r.code then [("code", r.code.getD "")] else [])
  let base := base ++
    (if strTruthy r.refreshToken then [("refresh_token", r.refreshToken.getD "")] else [])
  match r.extras with
  | none => base
  | some ex => base ++ ex.filter (fun p => (base.map Prod.fst).contains p.1 = false)

/-- `ExtendedTokenRequestHandler.performTokenRequest`
(src/unnamed/part_003 lines 587-614): the `cleaned_request` map it computes,
with `redirect_uri` deleted for the refresh-token grant. -/
def performTokenRequestCleanedMap (request : TokenRequest) : List (String × String) :=
  if request.grantType = GRANT_TYPE_REFRESH_TOKEN then
    request.toStringMap.filter (fun p => p.1 ≠ "redirect_uri")
  else
    request.toStringMap

/-- `ExtendedTokenRequestHandler.performTokenRequest`
(src/unnamed/part_003 lines 587-614): the form body actually POSTed to the
token endpoint.  The source computes `cleaned_request` but then passes
`this.utils.stringify(request.toStringMap())` as `data`, so the body is a
fresh `toStringMap()` of the request, not the cleaned map. -/
def performTokenRequestBody (request : TokenRequest) : List (String × String) :=
  let _cleaned_request := performTokenRequestCleanedMap request
  request.toStringMap

/-- The refresh-grant `TokenRequest` built by `AuthAdapter.refreshTokens`
(src/unnamed/part_003 lines 268-275): client_id, settings redirect_uri,
grant_type refresh_token, no code, the held refresh token, no extras. -/
def mkRefreshTokenRequest (clientId redirectUri refreshToken : String) : TokenRequest :=
  { clientId := clientId, redirectUri := redirectUri,
    grantType := GRANT_TYPE_REFRESH_TOKEN, code := none,
    refreshToken := some refreshToken, extras := none }

/-- The authorization-code-grant `TokenRequest` built by
`AuthAdapter.finishAuthorization` (src/unnamed/part_003 lines 228-237):
client_id, redirect_uri, grant_type authorization_code, code, refresh_token
undefined, extras carrying the PKCE code_verifier when present. -/
def mkAuthorizationCodeTokenRequest (clientId redirectUri code : String)
    (codeVerifier : Option String) : TokenRequest :=
  { clientId := clientId, redirectUri := redirectUri,
    grantType := GRANT_TYPE_AUTHORIZATION_CODE, code := some code,
    refreshToken := none,
    extras := some (match codeVerifier with
      | some v => [("code_verifier", v)]
      | none => []) }

/-- In-memory state of an `ExtendedOidcTokenResponse` (src/unnamed/part_003
lines 510-578, extending appauth's `TokenResponse`).  `Option` fields are the
TypeScript `| undefined` fields. -/
structure ExtendedOidcTokenResponse where
  accessToken : String
  idToken : Option String := none
  refreshToken : Option String := none
  scope : Option String := none
  tokenType : String := "bearer"
  issuedAt : Int
  expiresIn : Option Int := none
  refreshExpiresIn : Option Int := none
  sessionState : Option String := none
  notBeforePolicy : Option Bool := none
deriving Repr, DecidableEq

/-- Models `@openid/appauth` `TokenResponse.isValid(buffer)` (the inherited
method used by `AuthAdapter`): when `expiresIn` is truthy (present and
non-zero), valid iff `now < issuedAt + expiresIn + buffer`; otherwise always
valid.  The appauth default buffer `AUTH_EXPIRY_BUFFER` is `10 * 60 * -1`. -/
def ExtendedOidcTokenResponse.isValid (t : ExtendedOidcTokenResponse)
    (now : Int) (buffer : Int) : Bool :=
  match t.expiresIn with
  | some e => if e ≠ 0 then decide (now < t.issuedAt + e + buffer) else true
  | none => true

/-- `ExtendedOidcTokenResponse.isRefreshValid(buffer)` (src/unnamed/part_003
lines 570-577): `if (this.refreshExpiresIn)` — truthy, so present and
non-zero — `return now < this.issuedAt + this.refreshExpiresIn + buffer`,
else `return true`.  The source default buffer is `10 * 60 * -1 = -600`. -/
def ExtendedOidcTokenResponse.isRefreshValid (t : ExtendedOidcTokenResponse)
    (now : Int) (buffer : Int) : Bool :=
  match t.refreshExpiresIn with
  | some v => if v ≠ 0 then decide (now < t.issuedAt + v + buffer) else true
  | none => true

/-- Which refresh triggers fire in one tick of `AuthAdapter.checkExpire`
(src/unnamed/part_003 lines 143-160): when a token response is held, the
access branch fires iff `!isValid(-60)` and the refresh branch fires iff
`!isRefreshValid()` (default buffer -600); each fires independently. -/
structure CheckExpireTick where
  accessBranchFires : Bool
  refreshBranchFires : Bool
deriving Repr, DecidableEq

/-- `AuthAdapter.checkExpire` (src/unnamed/part_003 lines 143-160). -/
def checkExpire (accessTokenResponse : Option ExtendedOidcTokenResponse)
    (now : Int) : CheckExpireTick :=
  match accessTokenResponse with
  | none => { accessBranchFires := false, refreshBranchFires := false }
  | some t =>
      { accessBranchFires := !(t.isValid now (-60)),
        refreshBranchFires := !(t.isRefreshValid now (-600)) }

/-- The `IResponse` record produced by `toReduxState`
(src/src/AuthSlice.ts / src/unnamed/part_003).  Numeric fields are
`Option Int` with `none` standing for JavaScript `NaN`/`undefined`
propagation, string fields `Option String` for possibly-undefined values
passed through a non-null assertion. -/
structure IResponse where
  access_token : String
  access_token_expire : Option Int
  id_token : Option String
  refresh_token : Option String
  refresh_token_expire : Option Int
  scope : Option String
  session_id : Option String
deriving Repr, DecidableEq

/-- JavaScript addition over possibly-undefined numbers: `x + undefined`
is `NaN` (here `none`). -/
def jsAdd (a b : Option Int) : Option Int :=
  match a, b with
  | some x, some y => some (x + y)
  | _, _ => none

/-- JavaScript multiplication over possibly-undefined numbers. -/
def jsMul (a b : Option Int) : Option Int :=
  match a, b with
  | some x, some y => some (x * y)
  | _, _ => none

/-- The TypeScript comparison `x === null` evaluated on a `T | undefined`
field: `undefined === null` is false and the fields of
`ExtendedOidcTokenResponse` are never `null`, so it never holds. -/
def jsEqNull {α : Type} (_x : Option α) : Bool := false

/-- `ExtendedOidcTokenResponse.toReduxState` (src/unnamed/part_003 lines
543-568): rejects when any of the `=== null` checks hold (they never do,
since the fields are `| undefined`), else resolves the record with
`access_token_expire = (issuedAt + expiresIn) * 1000` and
`refresh_token_expire = issuedAt + expiresIn * 1000`. -/
def ExtendedOidcTokenResponse.toReduxState (t : ExtendedOidcTokenResponse) :
    Except String IResponse :=
  if jsEqNull t.expiresIn || jsEqNull t.idToken || jsEqNull t.refreshToken ||
      jsEqNull t.refreshExpiresIn || jsEqNull t.sessionState ||
      jsEqNull t.scope || jsEqNull t.sessionState then
    Except.error
      "Missing extended OIDC (expiresIn, idToken, refreshExpiresIn or sessionState"
  else
    Except.ok
      { access_token := t.accessToken,
        access_token_expire := jsMul (jsAdd (some t.issuedAt) t.expiresIn) (some 1000),
        id_token := t.idToken,
        refresh_token := t.refreshToken,
        refresh_token_expire := jsAdd (some t.issuedAt) (jsMul t.expiresIn (some 1000)),
        scope := t.scope,
        session_id := t.sessionState }

/-- In-memory token state of an `AuthAdapter` relevant to `refreshTokens`
(src/unnamed/part_003): the discovered service configuration (presence only),
the held refresh token and the held access-token response. -/
structure AdapterTokenState where
  configurationPresent : Bool
  refreshToken : Option String
  accessTokenResponse : Option ExtendedOidcTokenResponse
deriving Repr, DecidableEq

/-- Outcome of a call to `AuthAdapter.refreshTokens`
(src/unnamed/part_003 lines 256-284). -/
inductive RefreshTokensOutcome where
  /-- Rejected with `Error('Unknown service configuration')`. -/
  | rejectedUnknownConfiguration : RefreshTokensOutcome
  /-- Rejected with `Error('Missing refreshToken.')`. -/
  | rejectedMissingRefreshToken : RefreshTokensOutcome
  /-- Short circuit: resolved with the held access token, no network call. -/
  | resolvedHeldToken (accessToken : String) : RefreshTokensOutcome
  /-- Performs a token-endpoint request with the given refresh-grant body. -/
  | performsRequest (request : TokenRequest) : RefreshTokensOutcome
deriving Repr, DecidableEq

/-- `AuthAdapter.refreshTokens` (src/unnamed/part_003 lines 256-284), up to
the point where a network request would be issued: guards on configuration
then refresh token (JS truthiness), then short-circuits when the held access
token response `isValid()` under the appauth default buffer (-600); the
returned state is the adapter state at that point (unchanged — mutation
happens only in the continuation of a performed request). -/
def refreshTokens (clientId redirectUri : String) (st : AdapterTokenState)
    (now : Int) : RefreshTokensOutcome × AdapterTokenState :=
  if !st.configurationPresent then
    (RefreshTokensOutcome.rejectedUnknownConfiguration, st)
  else if !(strTruthy st.refreshToken) then
    (RefreshTokensOutcome.rejectedMissingRefreshToken, st)
  else
    match st.accessTokenResponse with
    | some tok =>
        if tok.isValid now (-600) then
          (RefreshTokensOutcome.resolvedHeldToken tok.accessToken, st)
        else
          (RefreshTokensOutcome.performsRequest
            (mkRefreshTokenRequest clientId redirectUri (st.refreshToken.getD "")), st)
    | none =>
        (RefreshTokensOutcome.performsRequest
          (mkRefreshTokenRequest clientId redirectUri (st.refreshToken.getD "")), st)

/-- The fields of an appauth `AuthorizationRequest` the handlers read back
after persisting: its random `state` plus identification data. -/
structure AuthorizationRequestM where
  clientId : String
  redirectUri : String
  scope : String
  state : String
deriving Repr, DecidableEq

/-- A value held by the storage backend.  The handlers store the raw handle
string under the singleton pointer key and JSON-serialized request /
service-configuration objects under the handle-derived keys; the
`JSON.stringify`/`JSON.parse` round-trip is modelled as this identity
embedding. -/
inductive StoredVal where
  | str (s : String) : StoredVal
  | req (r : AuthorizationRequestM) : StoredVal
  | cfg : StoredVal
deriving Repr, DecidableEq

/-- The asynchronous key-value storage backend (`StorageBackend`, default
browser local storage), as a total map from keys to optionally-present
values. -/
def Store : Type := String → Option StoredVal

/-- `storageBackend.setItem`. -/
def Store.setItem (s : Store) (k : String) (v : StoredVal) : Store :=
  fun k2 => if k2 = k then some v else s k2

/-- `storageBackend.removeItem`. -/
def Store.removeItem (s : Store) (k : String) : Store :=
  fun k2 => if k2 = k then none else s k2

/-- The empty storage namespace. -/
def Store.empty : Store := fun _ => none

/-- `authorizationRequestKey(handle)` (src/unnamed/part_002 lines 31-33 and
src/src/helper/IFrameRequestHandler.ts lines 17-19). -/
def authorizationRequestKey (handle : String) : String :=
  handle ++ "_appauth_authorization_request"

/-- `authorizationServiceConfigurationKey(handle)` (src/unnamed/part_002
lines 36-38 and src/src/helper/IFrameRequestHandler.ts lines 22-24). -/
def authorizationServiceConfigurationKey (handle : String) : String :=
  handle ++ "_appauth_authorization_service_configuration"

/-- `AUTHORIZATION_REQUEST_HANDLE_KEY` (src/unnamed/part_002 lines 41-42). -/
def AUTHORIZATION_REQUEST_HANDLE_KEY : String :=
  "appauth_current_authorization_request"

/-- The persistence phase of `performAuthorizationRequest`
(src/unnamed/part_002 lines 80-98 and src/src/helper/IFrameRequestHandler.ts
lines 67-92): a `Promise.all` of three `setItem`s — the handle as the
current-request pointer, the serialized request keyed by handle, the
serialized service configuration keyed by handle.  The writes target three
keys and all complete before navigation, so the resulting store is their
composition. -/
def persistAuthorizationRequest (store : Store) (handle : String)
    (request : AuthorizationRequestM) : Store :=
  ((store.setItem AUTHORIZATION_REQUEST_HANDLE_KEY (StoredVal.str handle)).setItem
      (authorizationRequestKey handle) (StoredVal.req request)).setItem
    (authorizationServiceConfigurationKey handle) StoredVal.cfg

/-- Settlement of the transport window's promise, as observed by the request
handler: the popup/iframe promise either resolves with an
`AuthorizationResponse` or rejects (timeout, closed surface, posted error,
protocol violation). -/
inductive TransportSettlement where
  | resolved (code : String) (state : String) : TransportSettlement
  | rejected (message : String) : TransportSettlement
deriving Repr, DecidableEq

/-- `AuthorizationResponse` — holds `code` and `state`. -/
structure AuthorizationResponseM where
  code : String
  state : String
deriving Repr, DecidableEq

/-- `AuthorizationError` — holds `error` and optional description, uri,
state. -/
structure AuthorizationErrorM where
  error : String
  error_description : Option String
  error_uri : Option String
  state : Option String
deriving Repr, DecidableEq

/-- `AuthorizationRequestResponse` — `{request, response, error}`. -/
structure AuthorizationRequestResponseM where
  request : AuthorizationRequestM
  response : Option AuthorizationResponseM
  error : Option AuthorizationErrorM
deriving Repr, DecidableEq

/-- The post-settlement phase of `PopupRequestHandler.performAuthorizationRequest`
(src/unnamed/part_002 lines 100-137): when the popup promise resolves, the
three persisted keys are removed and `{request, response, error: null}` is
delivered; when it rejects, the rejection passes through the `.then` without
any handler, so no key is removed and the flow's promise rejects.
`IFrameRequestHandler.performAuthorizationRequest`
(src/src/helper/IFrameRequestHandler.ts lines 94-151) behaves the same on
the store: its `.catch` re-wraps the rejection and aborts the iframe but
performs no `removeItem`. -/
def popupHandlerAfterSettlement (store : Store) (handle : String)
    (request : AuthorizationRequestM) (settlement : TransportSettlement) :
    Store × Except String AuthorizationRequestResponseM :=
  match settlement with
  | TransportSettlement.resolved code state =>
      (((store.removeItem AUTHORIZATION_REQUEST_HANDLE_KEY).removeItem
          (authorizationRequestKey handle)).removeItem
        (authorizationServiceConfigurationKey handle),
        Except.ok
          { request := request,
            response := some { code := code, state := state },
            error := none })
  | TransportSettlement.rejected msg =>
      (store, Except.error msg)

/-- The callback URL's fragment parameters as read by
`completeAuthorizationRequest` via
`new URLSearchParams(window.location.hash.replace('#','?'))`: raw
`URLSearchParams.get` results (`none` = parameter absent). -/
structure CallbackParams where
  state : Option String := none
  code : Option String := none
  error : Option String := none
  error_uri : Option String := none
  error_description : Option String := none
deriving Repr, DecidableEq

/-- `PopupRequestHandler.completeAuthorizationRequest`
(src/unnamed/part_002 lines 142-205).  Reads the current-request pointer
(`none` or an empty handle ⇒ no pending flow ⇒ null); loads and parses the
persisted request (a missing or non-request value makes `JSON.parse(result!)`
throw ⇒ error); reads `state`, `code`, `error` from the URL with
`get(..) || undefined`; proceeds only `if (state && code)`; inside, notifies
only when the URL state equals the persisted request's state, building an
`AuthorizationError` when `error` is present and an `AuthorizationResponse`
otherwise; every other path resolves null.  No key is removed. -/
def popupCompleteAuthorizationRequest (store : Store) (url : CallbackParams) :
    Except String (Option AuthorizationRequestResponseM) :=
  match store AUTHORIZATION_REQUEST_HANDLE_KEY with
  | none => Except.ok none
  | some (StoredVal.req _) => Except.error "handle is not a string"
  | some StoredVal.cfg => Except.error "handle is not a string"
  | some (StoredVal.str handle) =>
    if handle = "" then Except.ok none
    else
      match store (authorizationRequestKey handle) with
      | none => Except.error "JSON.parse(null) throws"
      | some (StoredVal.str _) => Except.error "stored value is not a request"
      | some StoredVal.cfg => Except.error "stored value is not a request"
      | some (StoredVal.req request) =>
        let state := getOrUndefined url.state
        let code := getOrUndefined url.code
        let error := getOrUndefined url.error
        if state.isSome && code.isSome then
          let shouldNotify := state = some request.state
          if shouldNotify then
            if error.isSome then
              Except.ok (some
                { request := request,
                  response := none,
                  error := some
                    { error := error.getD "",
                      error_description := getOrUndefined url.error_description,
                      error_uri := getOrUndefined url.error_uri,
                      state := state } })
            else
              Except.ok (some
                { request := request,
                  response := some { code := code.getD "", state := state.getD "" },
                  error := none })
          else Except.ok none
        else Except.ok none

/-- `IFrameRequestHandler.completeAuthorizationRequest`
(src/src/helper/IFrameRequestHandler.ts lines 156-215).  Same shape as the
popup variant except the guard is `if (state && (code || error))` and the
reconciled branch builds an `AuthorizationError` when `error` is present,
else an `AuthorizationResponse` when `code` is present. -/
def iframeCompleteAuthorizationRequest (store : Store) (url : CallbackParams) :
    Except String (Option AuthorizationRequestResponseM) :=
  match store AUTHORIZATION_REQUEST_HANDLE_KEY with
  | none => Except.ok none
  | some (StoredVal.req _) => Except.error "handle is not a string"
  | some StoredVal.cfg => Except.error "handle is not a string"
  | some (StoredVal.str handle) =>
    if handle = "" then Except.ok none
    else
      match store (authorizationRequestKey handle) with
      | none => Except.error "JSON.parse(null) throws"
      | some (StoredVal.str _) => Except.error "stored value is not a request"
      | some StoredVal.cfg => Except.error "stored value is not a request"
      | some (StoredVal.req request) =>
        let state := getOrUndefined url.state
        let code := getOrUndefined url.code
        let error := getOrUndefined url.error
        if state.isSome && (code.isSome || error.isSome) then
          let shouldNotify := state = some request.state
          if shouldNotify then
            if error.isSome then
              Except.ok (some
                { request := request,
                  response := none,
                  error := some
                    { error := error.getD "",
                      error_description := getOrUndefined url.error_description,
                      error_uri := getOrUndefined url.error_uri,
                      state := state } })
            else if code.isSome then
              Except.ok (some
                { request := request,
                  response := some { code := code.getD "", state := state.getD "" },
                  error := none })
            else
              Except.ok (some { request := request, response := none, error := none })
          else Except.ok none
        else Except.ok none

/-- Promise state of a `PopupWindow`'s `_promise` (JS promise semantics:
exactly the first call to `_resolve`/`_reject` determines the outcome; later
calls are no-ops). -/
inductive PromiseState where
  | pending : PromiseState
  | resolvedWith (response : AuthorizationResponseM) : PromiseState
  | rejectedWith (message : String) : PromiseState
  | rejectedAuthError (e : AuthorizationErrorM) : PromiseState
deriving Repr, DecidableEq

/-- Settle a promise: takes effect only while pending. -/
def PromiseState.settle (p : PromiseState) (outcome : PromiseState) : PromiseState :=
  match p with
  | PromiseState.pending => outcome
  | _ => p

/-- Runtime state of a `PopupWindow` after `navigate`
(src/src/helper/PopupHelper.ts): the promise, whether the
popup-closed polling interval is scheduled (`_checkForPopupClosedTimer`),
whether the one-shot timeout is scheduled (`timeoutId`), whether the message
listener is registered (`_popupEventListener`), and whether the popup
surface is open (`_popup` non-null and not closed). -/
structure PopupWindowState where
  promise : PromiseState
  intervalActive : Bool
  timeoutActive : Bool
  listenerActive : Bool
  popupOpen : Bool
deriving Repr, DecidableEq

/-- `PopupWindow.cleanup` (src/src/helper/PopupHelper.ts lines 133-146):
clears the closed-poll interval, removes the message listener, closes the
popup and nulls it.  It does not touch the `timeoutId` timeout (a local of
`navigate`, invisible to `cleanup`). -/
def popupCleanup (st : PopupWindowState) : PopupWindowState :=
  { st with intervalActive := false, listenerActive := false, popupOpen := false }

/-- The payload of a message event as inspected by the popup's listener:
`e.data` may be absent, and carries `type`, `response`, `error`. -/
structure MessageData where
  type : String
  response : Option AuthorizationResponseM
  error : Option AuthorizationErrorM
deriving Repr, DecidableEq

/-- An asynchronous trigger racing inside `PopupWindow.navigate`: a message
event, the one-shot timeout firing, or one tick of the popup-closed poll
(carrying whether the user has closed the surface). -/
inductive PopupEvent where
  | message (data : Option MessageData) : PopupEvent
  | timeoutFires : PopupEvent
  | closedPollTick (userClosedPopup : Bool) : PopupEvent
deriving Repr, DecidableEq

/-- One trigger of the machinery installed by `PopupWindow.navigate`
(src/src/helper/PopupHelper.ts lines 90-121):
- message listener: ignores events unless the listener is still registered,
  `e.data` is truthy and `e.data.type === 'authorization_response'`; then
  runs `cleanup()` and resolves with the response if present, rejects with
  the error if present, else rejects "Both empty";
- timeout: if still scheduled, fires once — `clearInterval`, `cleanup()`,
  reject "Popup Timeout";
- closed poll: if the interval is still scheduled and the popup is gone or
  closed — `cleanup()`, `clearTimeout(timeoutId)`, reject
  "Popup window closed". -/
def popupStep (st : PopupWindowState) (ev : PopupEvent) : PopupWindowState :=
  match ev with
  | PopupEvent.message data =>
      if !st.listenerActive then st
      else
        match data with
        | none => st
        | some d =>
            if d.type ≠ "authorization_response" then st
            else
              let st := popupCleanup st
              match d.response with
              | some r => { st with promise := st.promise.settle (PromiseState.resolvedWith r) }
              | none =>
                match d.error with
                | some e =>
                    { st with promise := st.promise.settle (PromiseState.rejectedAuthError e) }
                | none =>
                    let msg := "OIDC: Both response and error where empty"
                    { st with promise := st.promise.settle (PromiseState.rejectedWith msg) }
  | PopupEvent.timeoutFires =>
      if !st.timeoutActive then st
      else
        let st := { st with intervalActive := false }
        let st := popupCleanup st
        let st := { st with timeoutActive := false }
        { st with promise := st.promise.settle (PromiseState.rejectedWith "Popup Timeout") }
  | PopupEvent.closedPollTick userClosedPopup =>
      if !st.intervalActive then st
      else if !st.popupOpen || userClosedPopup then
        let st := popupCleanup st
        let st := { st with timeoutActive := false }
        { st with promise := st.promise.settle (PromiseState.rejectedWith "Popup window closed") }
      else st

/-- `PopupWindow.navigate` entry (src/src/helper/PopupHelper.ts lines 79-128)
as a function of whether the constructor's `window.open` succeeded and of the
`params.url` value: with no popup it rejects "Error opening popup window";
with a missing or empty url it rejects
"PopupWindow.navigate: no url provided" (the immediately following second
`_reject` is a no-op on the already-rejected promise) and starts no timer or
listener, leaving the constructor-opened popup as it is; otherwise it starts
the closed-poll interval, the timeout and the message listener and navigates
the popup. -/
def popupNavigate (openSucceeded : Bool) (url : Option String) : PopupWindowState :=
  if !openSucceeded then
    { promise := PromiseState.rejectedWith "PopupWindow.navigate: Error opening popup window",
      intervalActive := false, timeoutActive := false, listenerActive := false,
      popupOpen := false }
  else if !(strTruthy url) then
    { promise := PromiseState.rejectedWith "PopupWindow.navigate: no url provided",
      intervalActive := false, timeoutActive := false, listenerActive := false,
      popupOpen := true }
  else
    { promise := PromiseState.pending,
      intervalActive := true, timeoutActive := true, listenerActive := true,
      popupOpen := true }

/-- Concrete persisted request with state "S" for the C4 scenarios. -/
def c4Req : AuthorizationRequestM :=
  { clientId := "c", redirectUri := "u", scope := "openid", state := "S" }

/-- Concrete persisted state for the C4 scenarios: current pointer "H" and
the persisted request `c4Req`. -/
def c4Store : Store :=
  (Store.empty.setItem AUTHORIZATION_REQUEST_HANDLE_KEY (StoredVal.str "H")).setItem
    (authorizationRequestKey "H") (StoredVal.req c4Req)


/-- Runtime state of an `IFrameWindow` after `navigate`
(src/src/helper/IFrameHelper.ts): the promise, whether the one-shot timeout
is scheduled (`_timeoutTimer`), whether the message listener is registered
(`_iframeEventListener`), and whether the iframe element is attached. -/
structure IFrameWindowState where
  promise : PromiseState
  timeoutActive : Bool
  listenerActive : Bool
  iframeAttached : Bool
deriving Repr, DecidableEq

/-- `IFrameWindow.cleanup` (src/src/helper/IFrameHelper.ts lines 119-132):
clears the timeout (tracked in the `_timeoutTimer` member, unlike the
popup), removes the message listener and removes the iframe element. -/
def iframeCleanup (st : IFrameWindowState) : IFrameWindowState :=
  { st with timeoutActive := false, listenerActive := false, iframeAttached := false }

/-- An asynchronous trigger racing inside `IFrameWindow.navigate`: a message
event or the one-shot timeout firing (the iframe has no closed-poll). -/
inductive IFrameEvent where
  | message (data : Option MessageData) : IFrameEvent
  | timeoutFires : IFrameEvent
deriving Repr, DecidableEq

/-- One trigger of the machinery installed by `IFrameWindow.navigate`
(src/src/helper/IFrameHelper.ts lines 86-108): the message listener behaves
like the popup one; the timeout, if still scheduled, runs `cleanup()` and
rejects "IFrame Timeout". -/
def iframeStep (st : IFrameWindowState) (ev : IFrameEvent) : IFrameWindowState :=
  match ev with
  | IFrameEvent.message data =>
      if !st.listenerActive then st
      else
        match data with
        | none => st
        | some d =>
            if d.type ≠ "authorization_response" then st
            else
              let st := iframeCleanup st
              match d.response with
              | some r => { st with promise := st.promise.settle (PromiseState.resolvedWith r) }
              | none =>
                match d.error with
                | some e =>
                    { st with promise := st.promise.settle (PromiseState.rejectedAuthError e) }
                | none =>
                    let msg := "OIDC: Both response and error where empty"
                    { st with promise := st.promise.settle (PromiseState.rejectedWith msg) }
  | IFrameEvent.timeoutFires =>
      if !st.timeoutActive then st
      else
        let st := iframeCleanup st
        { st with promise := st.promise.settle (PromiseState.rejectedWith "IFrame Timeout") }

/-- C1: The claim says the refresh-token-grant form body contains client_id,
grant_type=refresh_token and refresh_token but no redirect_uri.  Evaluating
`performTokenRequest` at the refresh request built by
`AuthAdapter.refreshTokens` shows the POSTed body DOES contain redirect_uri:
the source deletes it from `cleaned_request` but then stringifies a fresh
`request.toStringMap()`.  The cleaned map (the evident intent) lacks it, and
the authorization-code-grant body indeed never carries a refresh_token
field. -/
theorem performTokenRequest_refresh_body_keeps_redirect_uri :
    (performTokenRequestBody (mkRefreshTokenRequest "client" "https://app/cb" "RT")) =
      [("grant_type", "refresh_token"), ("redirect_uri", "https://app/cb"),
        ("client_id", "client"), ("refresh_token", "RT")] ∧
    (performTokenRequestBody (mkRefreshTokenRequest "client" "https://app/cb" "RT")).contains
        ("redirect_uri", "https://app/cb") = true ∧
    (performTokenRequestCleanedMap (mkRefreshTokenRequest "client" "https://app/cb" "RT")).contains
        ("redirect_uri", "https://app/cb") = false ∧
    (performTokenRequestBody
        (mkAuthorizationCodeTokenRequest "client" "https://app/cb" "CODE" (some "VERIFIER"))).all
        (fun p => p.1 ≠ "refresh_token") = true := by
  decide

/-- C5 counterexample: `PopupWindow.navigate` called with no url on a window
whose constructor successfully opened the popup surface rejects with the
"no url provided" error, but the surface is left open — `cleanup`/`close`
is not called on this path, contradicting the claim that no surface is
created or left open afterwards. -/
theorem popupNavigate_no_url_leaves_surface_open :
    (popupNavigate true none).promise =
      PromiseState.rejectedWith "PopupWindow.navigate: no url provided" ∧
    (popupNavigate true none).popupOpen = true := by
  decide

/-- C5 amended: with no url (absent or empty), the promise rejects with
"PopupWindow.navigate: no url provided" and no timer or listener is started,
but the popup surface opened by the constructor is not closed. -/
theorem popupNavigate_no_url_behavior :
    popupNavigate true none =
      { promise := PromiseState.rejectedWith "PopupWindow.navigate: no url provided",
        intervalActive := false, timeoutActive := false, listenerActive := false,
        popupOpen := true } ∧
    popupNavigate true (some "") =
      { promise := PromiseState.rejectedWith "PopupWindow.navigate: no url provided",
        intervalActive := false, timeoutActive := false, listenerActive := false,
        popupOpen := true } := by
  decide

/-- C8: whenever a token response is held, one tick of `checkExpire` fires
the access branch iff the access token is invalid under the -60s buffer and
the refresh branch iff the refresh token is invalid under the -600s buffer,
independently; in the scenario issued_at = T, expires_in = 3600,
refresh_expires_in = 86400, at now = T + 3541 only the access branch
fires. -/
theorem checkExpire_buffers_and_scenario :
    (∀ (t : ExtendedOidcTokenResponse) (now : Int),
      checkExpire (some t) now =
        { accessBranchFires := !(t.isValid now (-60)),
          refreshBranchFires := !(t.isRefreshValid now (-600)) }) ∧
    (∀ T : Int,
      checkExpire
        (some { accessToken := "A", issuedAt := T, expiresIn := some 3600,
                refreshExpiresIn := some 86400 }) (T + 3541) =
        { accessBranchFires := true, refreshBranchFires := false }) := by
  constructor
  · intro t now
    rfl
  · intro T
    simp only [checkExpire, ExtendedOidcTokenResponse.isValid,
      ExtendedOidcTokenResponse.isRefreshValid, CheckExpireTick.mk.injEq]
    norm_num
    omega

/-- C9 counterexample: a token response with refresh_expires_in present and
equal to 0 (reachable from a JSON `refresh_expires_in: "0"`, which is a
truthy string, parsed by `parseInt` to 0).  `isRefreshValid` takes the
falsy-number branch and returns true, although
now < issued_at + refresh_expires_in + buffer is false: the claimed
equivalence fails. -/
theorem isRefreshValid_zero_counterexample :
    ({ accessToken := "A", issuedAt := 0, refreshExpiresIn := some 0 } :
        ExtendedOidcTokenResponse).isRefreshValid 1000 0 = true ∧
    ¬((1000 : Int) < 0 + 0 + 0) := by
  decide

/-- C9 amended: `isRefreshValid(buffer)` returns true iff refresh_expires_in
is absent, or its (parsed) value is zero — JavaScript falsy — or
now < issued_at + refresh_expires_in + buffer. -/
theorem isRefreshValid_characterization (t : ExtendedOidcTokenResponse)
    (now buffer : Int) :
    t.isRefreshValid now buffer = true ↔
      (t.refreshExpiresIn = none ∨ t.refreshExpiresIn = some 0 ∨
        ∃ v, t.refreshExpiresIn = some v ∧ now < t.issuedAt + v + buffer) := by
  unfold ExtendedOidcTokenResponse.isRefreshValid
  cases h : t.refreshExpiresIn with
  | none => simp
  | some v =>
      by_cases hv : v = 0
      · simp [hv]
      · simp only [hv, if_neg, ne_eq, not_false_iff, if_true, decide_eq_true_eq]
        constructor
        · intro hlt
          exact Or.inr (Or.inr ⟨v, rfl, hlt⟩)
        · rintro (hc | hc | ⟨w, hw, hlt⟩)
          · exact absurd hc (by simp)
          · exact absurd (Option.some.inj hc) hv
          · cases Option.some.inj hw
            exact hlt

/-- C10: whenever `expiresIn` is present, `toReduxState` resolves with
`access_token_expire = (issued_at + expires_in) * 1000` and
`refresh_token_expire = issued_at + expires_in * 1000` — computed from
expires_in with a different scaling, and independent of
refresh_expires_in. -/
theorem toReduxState_expire_fields (t : ExtendedOidcTokenResponse) (e : Int)
    (he : t.expiresIn = some e) :
    ∃ r : IResponse, t.toReduxState = Except.ok r ∧
      r.access_token_expire = some ((t.issuedAt + e) * 1000) ∧
      r.refresh_token_expire = some (t.issuedAt + e * 1000) ∧
      (∀ x : Option Int,
        ({ t with refreshExpiresIn := x } :
            ExtendedOidcTokenResponse).toReduxState = t.toReduxState) := by
  refine ⟨_, rfl, ?_, ?_, ?_⟩
  · simp [ExtendedOidcTokenResponse.toReduxState, jsEqNull, jsAdd, jsMul, he]
  · simp [ExtendedOidcTokenResponse.toReduxState, jsEqNull, jsAdd, jsMul, he]
  · intro x
    simp [ExtendedOidcTokenResponse.toReduxState, jsEqNull]

/-- C10 witness: the expiry fields at a concrete token response — issued_at
3000, expires_in 3600: access_token_expire is (3000 + 3600) * 1000 =
6600000 while refresh_token_expire is 3000 + 3600 * 1000 = 3603000. -/
theorem toReduxState_expire_fields_witness :
    ∃ r : IResponse,
      ({ accessToken := "A", issuedAt := 3000, expiresIn := some 3600,
          refreshExpiresIn := some 86400 } :
          ExtendedOidcTokenResponse).toReduxState = Except.ok r ∧
      r.access_token_expire = some ((3000 + 3600) * 1000) ∧
      r.refresh_token_expire = some (3000 + 3600 * 1000) ∧
      (∀ x : Option Int,
        ({ accessToken := "A", issuedAt := 3000, expiresIn := some 3600,
            refreshExpiresIn := x } :
            ExtendedOidcTokenResponse).toReduxState =
          ({ accessToken := "A", issuedAt := 3000, expiresIn := some 3600,
              refreshExpiresIn := some 86400 } :
              ExtendedOidcTokenResponse).toReduxState) :=
  toReduxState_expire_fields
    { accessToken := "A", issuedAt := 3000, expiresIn := some 3600,
      refreshExpiresIn := some 86400 } 3600 rfl

/-- C6 counterexample: an adapter state holding a service configuration and
a valid access-token response but no refresh token.  The claim requires
`refreshTokens` to resolve with the held access token, but the
missing-refresh-token guard runs first and the call rejects. -/
theorem refreshTokens_rejects_despite_valid_token :
    ({ accessToken := "A", issuedAt := 0, expiresIn := some 3600 } :
        ExtendedOidcTokenResponse).isValid 0 (-600) = true ∧
    (refreshTokens "client" "https://app/cb"
        { configurationPresent := true, refreshToken := none,
          accessTokenResponse :=
            some { accessToken := "A", issuedAt := 0, expiresIn := some 3600 } }
        0).1 = RefreshTokensOutcome.rejectedMissingRefreshToken ∧
    RefreshTokensOutcome.rejectedMissingRefreshToken ≠
      RefreshTokensOutcome.resolvedHeldToken "A" := by
  decide

/-- C6 amended: in every adapter state that holds a service configuration, a
truthy refresh token and an access-token response valid under the appauth
default buffer (-600), `refreshTokens` performs no token-endpoint request
and resolves with the already-held access token, leaving the adapter state
unchanged. -/
theorem refreshTokens_short_circuit (clientId redirectUri : String)
    (st : AdapterTokenState) (now : Int) (tok : ExtendedOidcTokenResponse)
    (hc : st.configurationPresent = true)
    (hr : strTruthy st.refreshToken = true)
    (ht : st.accessTokenResponse = some tok)
    (hv : tok.isValid now (-600) = true) :
    refreshTokens clientId redirectUri st now =
      (RefreshTokensOutcome.resolvedHeldToken tok.accessToken, st) := by
  unfold refreshTokens
  simp [hc, hr, ht, hv]

/-- C6 witness: the short-circuit at a concrete state — configuration
present, refresh token "RT", access token "A" issued at 0 with
expires_in 3600, at now = 0. -/
theorem refreshTokens_short_circuit_witness :
    refreshTokens "client" "https://app/cb"
      { configurationPresent := true, refreshToken := some "RT",
        accessTokenResponse :=
          some { accessToken := "A", issuedAt := 0, expiresIn := some 3600 } }
      0 =
      (RefreshTokensOutcome.resolvedHeldToken "A",
        { configurationPresent := true, refreshToken := some "RT",
          accessTokenResponse :=
            some { accessToken := "A", issuedAt := 0, expiresIn := some 3600 } }) :=
  refreshTokens_short_circuit "client" "https://app/cb"
    { configurationPresent := true, refreshToken := some "RT",
      accessTokenResponse :=
        some { accessToken := "A", issuedAt := 0, expiresIn := some 3600 } }
    0 { accessToken := "A", issuedAt := 0, expiresIn := some 3600 }
    rfl (by decide) rfl (by decide)

/-- C2 counterexample: after persisting the three keys for handle "H1", a
transport settlement by rejection (here the popup timeout) propagates the
failure to the caller while all three persisted keys are still present — the
deletion happens only in the resolution branch of the handler. -/
theorem popupHandler_rejection_keeps_keys :
    ((popupHandlerAfterSettlement
        (persistAuthorizationRequest Store.empty "H1"
          { clientId := "c", redirectUri := "https://app/cb", scope := "openid",
            state := "S1" })
        "H1"
        { clientId := "c", redirectUri := "https://app/cb", scope := "openid",
          state := "S1" }
        (TransportSettlement.rejected "Popup Timeout")).2 =
      Except.error "Popup Timeout") ∧
    ((popupHandlerAfterSettlement
        (persistAuthorizationRequest Store.empty "H1"
          { clientId := "c", redirectUri := "https://app/cb", scope := "openid",
            state := "S1" })
        "H1"
        { clientId := "c", redirectUri := "https://app/cb", scope := "openid",
          state := "S1" }
        (TransportSettlement.rejected "Popup Timeout")).1
        AUTHORIZATION_REQUEST_HANDLE_KEY = some (StoredVal.str "H1")) ∧
    ((popupHandlerAfterSettlement
        (persistAuthorizationRequest Store.empty "H1"
          { clientId := "c", redirectUri := "https://app/cb", scope := "openid",
            state := "S1" })
        "H1"
        { clientId := "c", redirectUri := "https://app/cb", scope := "openid",
          state := "S1" }
        (TransportSettlement.rejected "Popup Timeout")).1
        (authorizationRequestKey "H1") =
      some (StoredVal.req
        { clientId := "c", redirectUri := "https://app/cb", scope := "openid",
          state := "S1" })) ∧
    ((popupHandlerAfterSettlement
        (persistAuthorizationRequest Store.empty "H1"
          { clientId := "c", redirectUri := "https://app/cb", scope := "openid",
            state := "S1" })
        "H1"
        { clientId := "c", redirectUri := "https://app/cb", scope := "openid",
          state := "S1" }
        (TransportSettlement.rejected "Popup Timeout")).1
        (authorizationServiceConfigurationKey "H1") = some StoredVal.cfg) := by
  constructor
  · rfl
  refine ⟨?_, ?_, ?_⟩ <;> decide

/-- C2 amended: the popup/iframe handlers delete the three persisted keys
before the flow's promise settles only when the transport promise resolves
with a response; when the transport promise rejects (error, timeout, closed
surface), the rejection propagates to the caller and the storage backend is
left untouched. -/
theorem popupHandler_settlement_storage (store : Store) (handle : String)
    (r : AuthorizationRequestM) :
    (∀ code state,
      ((popupHandlerAfterSettlement store handle r
          (TransportSettlement.resolved code state)).1
          AUTHORIZATION_REQUEST_HANDLE_KEY = none) ∧
      ((popupHandlerAfterSettlement store handle r
          (TransportSettlement.resolved code state)).1
          (authorizationRequestKey handle) = none) ∧
      ((popupHandlerAfterSettlement store handle r
          (TransportSettlement.resolved code state)).1
          (authorizationServiceConfigurationKey handle) = none) ∧
      ((popupHandlerAfterSettlement store handle r
          (TransportSettlement.resolved code state)).2 =
        Except.ok
          { request := r, response := some { code := code, state := state },
            error := none })) ∧
    (∀ msg,
      popupHandlerAfterSettlement store handle r (TransportSettlement.rejected msg) =
        (store, Except.error msg)) := by
  constructor
  · intro code state
    refine ⟨?_, ?_, ?_, rfl⟩ <;>
      · simp only [popupHandlerAfterSettlement, Store.removeItem]
        split_ifs <;> simp_all
  · intro msg
    rfl

/-- C7: the persisted correlation store holds a single current-handle slot.
After two persistence phases with handles h1 then h2, the pointer holds h2;
completing against a callback URL carrying the first request's state reads
the second request, fails the state comparison and resolves null, while
completing against the second request's state resolves with its
authorization response. -/
theorem second_request_overwrites_pointer (store0 : Store) (h1 h2 c : String)
    (r1 r2 : AuthorizationRequestM)
    (hstate : r1.state ≠ r2.state)
    (hh2 : h2 ≠ "")
    (hs1 : r1.state ≠ "")
    (hs2 : r2.state ≠ "")
    (hc : c ≠ "")
    (hk1 : authorizationRequestKey h2 ≠ AUTHORIZATION_REQUEST_HANDLE_KEY)
    (hk2 : authorizationServiceConfigurationKey h2 ≠ AUTHORIZATION_REQUEST_HANDLE_KEY)
    (hk3 : authorizationServiceConfigurationKey h2 ≠ authorizationRequestKey h2) :
    ((persistAuthorizationRequest (persistAuthorizationRequest store0 h1 r1) h2 r2)
        AUTHORIZATION_REQUEST_HANDLE_KEY = some (StoredVal.str h2)) ∧
    (popupCompleteAuthorizationRequest
        (persistAuthorizationRequest (persistAuthorizationRequest store0 h1 r1) h2 r2)
        { state := some r1.state, code := some c } = Except.ok none) ∧
    (popupCompleteAuthorizationRequest
        (persistAuthorizationRequest (persistAuthorizationRequest store0 h1 r1) h2 r2)
        { state := some r2.state, code := some c } =
      Except.ok (some
        { request := r2, response := some { code := c, state := r2.state },
          error := none })) := by
  have hptr : (persistAuthorizationRequest (persistAuthorizationRequest store0 h1 r1) h2 r2)
      AUTHORIZATION_REQUEST_HANDLE_KEY = some (StoredVal.str h2) := by
    simp [persistAuthorizationRequest, Store.setItem, Ne.symm hk1, Ne.symm hk2]
  have hreq : (persistAuthorizationRequest (persistAuthorizationRequest store0 h1 r1) h2 r2)
      (authorizationRequestKey h2) = some (StoredVal.req r2) := by
    simp [persistAuthorizationRequest, Store.setItem, Ne.symm hk3]
  refine ⟨hptr, ?_, ?_⟩
  · simp [popupCompleteAuthorizationRequest, hptr, hh2, hreq, getOrUndefined, hs1, hc,
      hstate]
  · simp [popupCompleteAuthorizationRequest, hptr, hh2, hreq, getOrUndefined, hs2, hc]

/-- C7 witness: the overwrite scenario at concrete handles "H1"/"H2",
request states "S1"/"S2" and callback code "CODE" over the empty storage
namespace. -/
theorem second_request_overwrites_pointer_witness :
    ((persistAuthorizationRequest
        (persistAuthorizationRequest Store.empty "H1"
          { clientId := "c", redirectUri := "u", scope := "openid", state := "S1" })
        "H2"
        { clientId := "c", redirectUri := "u", scope := "openid", state := "S2" })
        AUTHORIZATION_REQUEST_HANDLE_KEY = some (StoredVal.str "H2")) ∧
    (popupCompleteAuthorizationRequest
        (persistAuthorizationRequest
          (persistAuthorizationRequest Store.empty "H1"
            { clientId := "c", redirectUri := "u", scope := "openid", state := "S1" })
          "H2"
          { clientId := "c", redirectUri := "u", scope := "openid", state := "S2" })
        { state := some "S1", code := some "CODE" } = Except.ok none) ∧
    (popupCompleteAuthorizationRequest
        (persistAuthorizationRequest
          (persistAuthorizationRequest Store.empty "H1"
            { clientId := "c", redirectUri := "u", scope := "openid", state := "S1" })
          "H2"
          { clientId := "c", redirectUri := "u", scope := "openid", state := "S2" })
        { state := some "S2", code := some "CODE" } =
      Except.ok (some
        { request :=
            { clientId := "c", redirectUri := "u", scope := "openid", state := "S2" },
          response := some { code := "CODE", state := "S2" }, error := none })) :=
  second_request_overwrites_pointer Store.empty "H1" "H2" "CODE"
    { clientId := "c", redirectUri := "u", scope := "openid", state := "S1" }
    { clientId := "c", redirectUri := "u", scope := "openid", state := "S2" }
    (by decide) (by decide) (by decide) (by decide) (by decide)
    (by decide) (by decide) (by decide)

/-- C4 counterexample: a callback URL whose state matches the persisted
request and which carries an error but no code.  The claim requires an
AuthorizationError to be built, but `PopupRequestHandler.completeAuthorizationRequest`
guards with `if (state && code)` and resolves null. -/
theorem popupComplete_error_without_code_yields_null :
    popupCompleteAuthorizationRequest c4Store
      { state := some "S", error := some "access_denied" } = Except.ok none := by
  rfl

/-- C4 amended: with a pending pointer and persisted request, both handlers
resolve null whenever the URL state does not reconcile with the persisted
state (and the read-only completion functions leave the keys in place);
when reconciled, the iframe handler builds an AuthorizationError if the URL
carries an error, else an AuthorizationResponse if it carries a code, and
the popup handler does the same except that it additionally requires a code
to be present in the URL, resolving null on an error-without-code
callback. -/
theorem completeAuthorizationRequest_reconciliation (store : Store)
    (handle : String) (r : AuthorizationRequestM) (url : CallbackParams)
    (hp : store AUTHORIZATION_REQUEST_HANDLE_KEY = some (StoredVal.str handle))
    (hh : handle ≠ "")
    (hr : store (authorizationRequestKey handle) = some (StoredVal.req r)) :
    (getOrUndefined url.state ≠ some r.state →
      popupCompleteAuthorizationRequest store url = Except.ok none ∧
      iframeCompleteAuthorizationRequest store url = Except.ok none) ∧
    (getOrUndefined url.state = some r.state →
      (getOrUndefined url.error).isSome = true →
      iframeCompleteAuthorizationRequest store url =
        Except.ok (some
          { request := r, response := none,
            error := some
              { error := (getOrUndefined url.error).getD "",
                error_description := getOrUndefined url.error_description,
                error_uri := getOrUndefined url.error_uri,
                state := some r.state } })) ∧
    (getOrUndefined url.state = some r.state →
      getOrUndefined url.error = none →
      (getOrUndefined url.code).isSome = true →
      iframeCompleteAuthorizationRequest store url =
        Except.ok (some
          { request := r,
            response := some
              { code := (getOrUndefined url.code).getD "", state := r.state },
            error := none })) ∧
    (getOrUndefined url.state = some r.state →
      (getOrUndefined url.code).isSome = true →
      (getOrUndefined url.error).isSome = true →
      popupCompleteAuthorizationRequest store url =
        Except.ok (some
          { request := r, response := none,
            error := some
              { error := (getOrUndefined url.error).getD "",
                error_description := getOrUndefined url.error_description,
                error_uri := getOrUndefined url.error_uri,
                state := some r.state } })) ∧
    (getOrUndefined url.state = some r.state →
      (getOrUndefined url.code).isSome = true →
      getOrUndefined url.error = none →
      popupCompleteAuthorizationRequest store url =
        Except.ok (some
          { request := r,
            response := some
              { code := (getOrUndefined url.code).getD "", state := r.state },
            error := none })) ∧
    (getOrUndefined url.code = none →
      popupCompleteAuthorizationRequest store url = Except.ok none) := by
  refine ⟨?_, ?_, ?_, ?_, ?_, ?_⟩
  · intro hne
    constructor
    · simp only [popupCompleteAuthorizationRequest, hp, hh, hr]
      cases hst : getOrUndefined url.state <;>
        cases hcode : getOrUndefined url.code <;>
          simp_all
    · simp only [iframeCompleteAuthorizationRequest, hp, hh, hr]
      cases hst : getOrUndefined url.state <;>
        cases herr : getOrUndefined url.error <;>
          cases hcode : getOrUndefined url.code <;>
            simp_all
  · intro hst herr
    simp [iframeCompleteAuthorizationRequest, hp, hh, hr, hst, herr]
  · intro hst herr hcode
    simp [iframeCompleteAuthorizationRequest, hp, hh, hr, hst, herr, hcode]
  · intro hst hcode herr
    simp [popupCompleteAuthorizationRequest, hp, hh, hr, hst, herr, hcode]
  · intro hst hcode herr
    simp [popupCompleteAuthorizationRequest, hp, hh, hr, hst, herr, hcode]
  · intro hcode
    simp [popupCompleteAuthorizationRequest, hp, hh, hr, hcode]

/-- C4 witness: at the concrete persisted state and a reconciling callback
carrying both a code and an error, the iframe handler and the popup handler
both build the AuthorizationError (the popup handler fires because a code is
also present). -/
theorem completeAuthorizationRequest_reconciliation_witness :
    (iframeCompleteAuthorizationRequest c4Store
        { state := some "S", code := some "CODE", error := some "access_denied",
          error_uri := none, error_description := some "denied" } =
      Except.ok (some
        { request := c4Req, response := none,
          error := some
            { error := "access_denied", error_description := some "denied",
              error_uri := none, state := some "S" } })) ∧
    (popupCompleteAuthorizationRequest c4Store
        { state := some "S", code := some "CODE", error := some "access_denied",
          error_uri := none, error_description := some "denied" } =
      Except.ok (some
        { request := c4Req, response := none,
          error := some
            { error := "access_denied", error_description := some "denied",
              error_uri := none, state := some "S" } })) :=
  ⟨(completeAuthorizationRequest_reconciliation c4Store "H" c4Req
      { state := some "S", code := some "CODE", error := some "access_denied",
        error_uri := none, error_description := some "denied" }
      rfl (by decide) rfl).2.1 rfl rfl,
   (completeAuthorizationRequest_reconciliation c4Store "H" c4Req
      { state := some "S", code := some "CODE", error := some "access_denied",
        error_uri := none, error_description := some "denied" }
      rfl (by decide) rfl).2.2.2.1 rfl rfl rfl⟩

/-- A settled promise is unchanged by further resolve/reject calls. -/
theorem PromiseState.settle_of_ne_pending (p o : PromiseState)
    (h : p ≠ PromiseState.pending) : p.settle o = p := by
  cases p <;> simp_all [PromiseState.settle]

/-- C3 counterexample: from the post-navigate state, a matching response
message settles the promise (resolve fires), but the timeout timer is still
armed afterwards — `cleanup()` cannot clear the `timeoutId` local, so not
every timer is torn down on this first settlement. -/
theorem popup_message_settlement_leaves_timeout_armed :
    ((popupStep
        { promise := PromiseState.pending, intervalActive := true,
          timeoutActive := true, listenerActive := true, popupOpen := true }
        (PopupEvent.message (some
          { type := "authorization_response",
            response := some { code := "C", state := "S" },
            error := none }))).promise =
      PromiseState.resolvedWith { code := "C", state := "S" }) ∧
    ((popupStep
        { promise := PromiseState.pending, intervalActive := true,
          timeoutActive := true, listenerActive := true, popupOpen := true }
        (PopupEvent.message (some
          { type := "authorization_response",
            response := some { code := "C", state := "S" },
            error := none }))).timeoutActive = true) := by
  decide

/-- C3 amended: for both transport windows the promise outcome is
single-shot — once settled, no later trigger changes it — and any trigger
that settles the promise has run `cleanup()`, tearing down the closed-poll
interval (popup), the message listener and the surface.  The popup's
timeout- and closed-triggered settlements also clear the respectively other
timer, and the iframe's cleanup clears its timeout on every settlement, but
a message-triggered settlement of the popup leaves the popup's timeout
armed; when that lingering timeout later fires, it reruns the idempotent
cleanup and its reject is a no-op on the settled promise. -/
theorem popup_settlement_single_shot (u : String) (d : MessageData)
    (st : PopupWindowState) (ev : PopupEvent)
    (ist : IFrameWindowState) (iev : IFrameEvent)
    (hu : u ≠ "") (hd : d.type = "authorization_response") :
    (st.promise ≠ PromiseState.pending → (popupStep st ev).promise = st.promise) ∧
    ((popupStep st ev).promise ≠ st.promise →
      (popupStep st ev).intervalActive = false ∧
      (popupStep st ev).listenerActive = false ∧
      (popupStep st ev).popupOpen = false) ∧
    ((popupStep (popupNavigate true (some u)) (PopupEvent.message (some d))).promise ≠
        PromiseState.pending ∧
      (popupStep (popupNavigate true (some u))
        (PopupEvent.message (some d))).intervalActive = false ∧
      (popupStep (popupNavigate true (some u))
        (PopupEvent.message (some d))).listenerActive = false ∧
      (popupStep (popupNavigate true (some u))
        (PopupEvent.message (some d))).timeoutActive = true) ∧
    ((popupStep (popupStep (popupNavigate true (some u)) (PopupEvent.message (some d)))
        PopupEvent.timeoutFires).promise =
      (popupStep (popupNavigate true (some u)) (PopupEvent.message (some d))).promise ∧
      (popupStep (popupStep (popupNavigate true (some u)) (PopupEvent.message (some d)))
        PopupEvent.timeoutFires).timeoutActive = false ∧
      (popupStep (popupStep (popupNavigate true (some u)) (PopupEvent.message (some d)))
        PopupEvent.timeoutFires).intervalActive = false ∧
      (popupStep (popupStep (popupNavigate true (some u)) (PopupEvent.message (some d)))
        PopupEvent.timeoutFires).listenerActive = false) ∧
    ((popupStep (popupNavigate true (some u)) PopupEvent.timeoutFires).promise =
        PromiseState.rejectedWith "Popup Timeout" ∧
      (popupStep (popupNavigate true (some u)) PopupEvent.timeoutFires).timeoutActive =
        false ∧
      (popupStep (popupNavigate true (some u)) PopupEvent.timeoutFires).intervalActive =
        false ∧
      (popupStep (popupNavigate true (some u)) PopupEvent.timeoutFires).listenerActive =
        false) ∧
    ((popupStep (popupNavigate true (some u)) (PopupEvent.closedPollTick true)).promise =
        PromiseState.rejectedWith "Popup window closed" ∧
      (popupStep (popupNavigate true (some u))
        (PopupEvent.closedPollTick true)).timeoutActive = false ∧
      (popupStep (popupNavigate true (some u))
        (PopupEvent.closedPollTick true)).intervalActive = false ∧
      (popupStep (popupNavigate true (some u))
        (PopupEvent.closedPollTick true)).listenerActive = false) ∧
    (ist.promise ≠ PromiseState.pending → (iframeStep ist iev).promise = ist.promise) ∧
    ((iframeStep ist iev).promise ≠ ist.promise →
      (iframeStep ist iev).timeoutActive = false ∧
      (iframeStep ist iev).listenerActive = false ∧
      (iframeStep ist iev).iframeAttached = false) ∧
    ((iframeStep
        { promise := PromiseState.pending, timeoutActive := true,
          listenerActive := true, iframeAttached := true }
        (IFrameEvent.message (some d))).promise ≠ PromiseState.pending ∧
      (iframeStep
        { promise := PromiseState.pending, timeoutActive := true,
          listenerActive := true, iframeAttached := true }
        (IFrameEvent.message (some d))).timeoutActive = false ∧
      (iframeStep
        { promise := PromiseState.pending, timeoutActive := true,
          listenerActive := true, iframeAttached := true }
        (IFrameEvent.message (some d))).listenerActive = false) := by
  have hnav : popupNavigate true (some u) =
      { promise := PromiseState.pending, intervalActive := true,
        timeoutActive := true, listenerActive := true, popupOpen := true } := by
    simp [popupNavigate, strTruthy, hu]
  refine ⟨?_, ?_, ?_, ?_, ?_, ?_, ?_, ?_, ?_⟩
  · intro hp
    cases ev with
    | message data =>
      cases data with
      | none => simp [popupStep]
      | some e =>
        by_cases hl : st.listenerActive
        · by_cases hty : e.type = "authorization_response"
          · cases hresp : e.response <;> cases herr : e.error <;>
              simp [popupStep, hl, hty, hresp, herr, popupCleanup,
                PromiseState.settle_of_ne_pending _ _ hp]
          · simp [popupStep, hl, hty]
        · simp [popupStep, hl]
    | timeoutFires =>
      by_cases ht : st.timeoutActive
      · simp [popupStep, ht, popupCleanup, PromiseState.settle_of_ne_pending _ _ hp]
      · simp [popupStep, ht]
    | closedPollTick closed =>
      by_cases hi : st.intervalActive
      · by_cases hcl : !st.popupOpen || closed
        · simp [popupStep, hi, hcl, popupCleanup,
            PromiseState.settle_of_ne_pending _ _ hp]
        · simp [popupStep, hi, hcl]
      · simp [popupStep, hi]
  · intro hchange
    cases ev with
    | message data =>
      cases data with
      | none => simp [popupStep] at hchange
      | some e =>
        by_cases hl : st.listenerActive
        · by_cases hty : e.type = "authorization_response"
          · cases hresp : e.response <;> cases herr : e.error <;>
              simp_all [popupStep, popupCleanup]
          · simp [popupStep, hl, hty] at hchange
        · simp [popupStep, hl] at hchange
    | timeoutFires =>
      by_cases ht : st.timeoutActive
      · simp_all [popupStep, popupCleanup]
      · simp [popupStep, ht] at hchange
    | closedPollTick closed =>
      by_cases hi : st.intervalActive
      · by_cases hcl : !st.popupOpen || closed
        · simp_all [popupStep, popupCleanup]
        · simp [popupStep, hi, hcl] at hchange
      · simp [popupStep, hi] at hchange
  · rw [hnav]
    cases hresp : d.response <;> cases herr : d.error <;>
      simp [popupStep, hd, hresp, herr, popupCleanup, PromiseState.settle]
  · rw [hnav]
    cases hresp : d.response <;> cases herr : d.error <;>
      simp [popupStep, hd, hresp, herr, popupCleanup, PromiseState.settle]
  · rw [hnav]
    simp [popupStep, popupCleanup, PromiseState.settle]
  · rw [hnav]
    simp [popupStep, popupCleanup, PromiseState.settle]
  · intro hp
    cases iev with
    | message data =>
      cases data with
      | none => simp [iframeStep]
      | some e =>
        by_cases hl : ist.listenerActive
        · by_cases hty : e.type = "authorization_response"
          · cases hresp : e.response <;> cases herr : e.error <;>
              simp [iframeStep, hl, hty, hresp, herr, iframeCleanup,
                PromiseState.settle_of_ne_pending _ _ hp]
          · simp [iframeStep, hl, hty]
        · simp [iframeStep, hl]
    | timeoutFires =>
      by_cases ht : ist.timeoutActive
      · simp [iframeStep, ht, iframeCleanup, PromiseState.settle_of_ne_pending _ _ hp]
      · simp [iframeStep, ht]
  · intro hchange
    cases iev with
    | message data =>
      cases data with
      | none => simp [iframeStep] at hchange
      | some e =>
        by_cases hl : ist.listenerActive
        · by_cases hty : e.type = "authorization_response"
          · cases hresp : e.response <;> cases herr : e.error <;>
              simp_all [iframeStep, iframeCleanup]
          · simp [iframeStep, hl, hty] at hchange
        · simp [iframeStep, hl] at hchange
    | timeoutFires =>
      by_cases ht : ist.timeoutActive
      · simp_all [iframeStep, iframeCleanup]
      · simp [iframeStep, ht] at hchange
  · cases hresp : d.response <;> cases herr : d.error <;>
      simp [iframeStep, hd, hresp, herr, iframeCleanup, PromiseState.settle]

/-- C3 witness: the single-shot and teardown facts instantiated at concrete
navigate states for both transports, a concrete matching response message
and the timeout trigger. -/
theorem popup_settlement_single_shot_witness :
    (({ promise := PromiseState.pending, intervalActive := true, timeoutActive := true, listenerActive := true, popupOpen := true } : PopupWindowState).promise ≠ PromiseState.pending → (popupStep { promise := PromiseState.pending, intervalActive := true, timeoutActive := true, listenerActive := true, popupOpen := true } PopupEvent.timeoutFires).promise = ({ promise := PromiseState.pending, intervalActive := true, timeoutActive := true, listenerActive := true, popupOpen := true } : PopupWindowState).promise) ∧
    ((popupStep { promise := PromiseState.pending, intervalActive := true, timeoutActive := true, listenerActive := true, popupOpen := true } PopupEvent.timeoutFires).promise ≠ ({ promise := PromiseState.pending, intervalActive := true, timeoutActive := true, listenerActive := true, popupOpen := true } : PopupWindowState).promise →
      (popupStep { promise := PromiseState.pending, intervalActive := true, timeoutActive := true, listenerActive := true, popupOpen := true } PopupEvent.timeoutFires).intervalActive = false ∧
      (popupStep { promise := PromiseState.pending, intervalActive := true, timeoutActive := true, listenerActive := true, popupOpen := true } PopupEvent.timeoutFires).listenerActive = false ∧
      (popupStep { promise := PromiseState.pending, intervalActive := true, timeoutActive := true, listenerActive := true, popupOpen := true } PopupEvent.timeoutFires).popupOpen = false) ∧
    ((popupStep (popupNavigate true (some "https://idp/auth")) (PopupEvent.message (some { type := "authorization_response", response := some { code := "C", state := "S" }, error := none }))).promise ≠
        PromiseState.pending ∧
      (popupStep (popupNavigate true (some "https://idp/auth"))
        (PopupEvent.message (some { type := "authorization_response", response := some { code := "C", state := "S" }, error := none }))).intervalActive = false ∧
      (popupStep (popupNavigate true (some "https://idp/auth"))
        (PopupEvent.message (some { type := "authorization_response", response := some { code := "C", state := "S" }, error := none }))).listenerActive = false ∧
      (popupStep (popupNavigate true (some "https://idp/auth"))
        (PopupEvent.message (some { type := "authorization_response", response := some { code := "C", state := "S" }, error := none }))).timeoutActive = true) ∧
    ((popupStep (popupStep (popupNavigate true (some "https://idp/auth")) (PopupEvent.message (some { type := "authorization_response", response := some { code := "C", state := "S" }, error := none })))
        PopupEvent.timeoutFires).promise =
      (popupStep (popupNavigate true (some "https://idp/auth")) (PopupEvent.message (some { type := "authorization_response", response := some { code := "C", state := "S" }, error := none }))).promise ∧
      (popupStep (popupStep (popupNavigate true (some "https://idp/auth")) (PopupEvent.message (some { type := "authorization_response", response := some { code := "C", state := "S" }, error := none })))
        PopupEvent.timeoutFires).timeoutActive = false ∧
      (popupStep (popupStep (popupNavigate true (some "https://idp/auth")) (PopupEvent.message (some { type := "authorization_response", response := some { code := "C", state := "S" }, error := none })))
        PopupEvent.timeoutFires).intervalActive = false ∧
      (popupStep (popupStep (popupNavigate true (some "https://idp/auth")) (PopupEvent.message (some { type := "authorization_response", response := some { code := "C", state := "S" }, error := none })))
        PopupEvent.timeoutFires).listenerActive = false) ∧
    ((popupStep (popupNavigate true (some "https://idp/auth")) PopupEvent.timeoutFires).promise =
        PromiseState.rejectedWith "Popup Timeout" ∧
      (popupStep (popupNavigate true (some "https://idp/auth")) PopupEvent.timeoutFires).timeoutActive =
        false ∧
      (popupStep (popupNavigate true (some "https://idp/auth")) PopupEvent.timeoutFires).intervalActive =
        false ∧
      (popupStep (popupNavigate true (some "https://idp/auth")) PopupEvent.timeoutFires).listenerActive =
        false) ∧
    ((popupStep (popupNavigate true (some "https://idp/auth")) (PopupEvent.closedPollTick true)).promise =
        PromiseState.rejectedWith "Popup window closed" ∧
      (popupStep (popupNavigate true (some "https://idp/auth"))
        (PopupEvent.closedPollTick true)).timeoutActive = false ∧
      (popupStep (popupNavigate true (some "https://idp/auth"))
        (PopupEvent.closedPollTick true)).intervalActive = false ∧
      (popupStep (popupNavigate true (some "https://idp/auth"))
        (PopupEvent.closedPollTick true)).listenerActive = false) ∧
    (({ promise := PromiseState.pending, timeoutActive := true, listenerActive := true, iframeAttached := true } : IFrameWindowState).promise ≠ PromiseState.pending → (iframeStep { promise := PromiseState.pending, timeoutActive := true, listenerActive := true, iframeAttached := true } IFrameEvent.timeoutFires).promise = ({ promise := PromiseState.pending, timeoutActive := true, listenerActive := true, iframeAttached := true } : IFrameWindowState).promise) ∧
    ((iframeStep { promise := PromiseState.pending, timeoutActive := true, listenerActive := true, iframeAttached := true } IFrameEvent.timeoutFires).promise ≠ ({ promise := PromiseState.pending, timeoutActive := true, listenerActive := true, iframeAttached := true } : IFrameWindowState).promise →
      (iframeStep { promise := PromiseState.pending, timeoutActive := true, listenerActive := true, iframeAttached := true } IFrameEvent.timeoutFires).timeoutActive = false ∧
      (iframeStep { promise := PromiseState.pending, timeoutActive := true, listenerActive := true, iframeAttached := true } IFrameEvent.timeoutFires).listenerActive = false ∧
      (iframeStep { promise := PromiseState.pending, timeoutActive := true, listenerActive := true, iframeAttached := true } IFrameEvent.timeoutFires).iframeAttached = false) ∧
    ((iframeStep
        { promise := PromiseState.pending, timeoutActive := true,
          listenerActive := true, iframeAttached := true }
        (IFrameEvent.message (some { type := "authorization_response", response := some { code := "C", state := "S" }, error := none }))).promise ≠ PromiseState.pending ∧
      (iframeStep
        { promise := PromiseState.pending, timeoutActive := true,
          listenerActive := true, iframeAttached := true }
        (IFrameEvent.message (some { type := "authorization_response", response := some { code := "C", state := "S" }, error := none }))).timeoutActive = false ∧
      (iframeStep
        { promise := PromiseState.pending, timeoutActive := true,
          listenerActive := true, iframeAttached := true }
        (IFrameEvent.message (some { type := "authorization_response", response := some { code := "C", state := "S" }, error := none }))).listenerActive = false) :=
  popup_settlement_single_shot "https://idp/auth"
    { type := "authorization_response", response := some { code := "C", state := "S" },
      error := none }
    { promise := PromiseState.pending, intervalActive := true, timeoutActive := true,
      listenerActive := true, popupOpen := true }
    PopupEvent.timeoutFires
    { promise := PromiseState.pending, timeoutActive := true, listenerActive := true,
      iframeAttached := true }
    IFrameEvent.timeoutFires (by decide) rfl
